import Mathlib

/-!
Shallow embedding of `src/app.py` (a small Flask receipt-generator app).

Numbers that the Python code handles as floats (quantities, prices, tax
rate, discount, timestamps) are modelled as exact rationals.  To keep every
definition kernel-computable we use a small rational type `Q` built on `ℤ`
(Mathlib's `ℚ` does not reduce inside `decide`).  All operations normalize
to a canonical form (positive denominator, coprime), so the values produced
by the embedded arithmetic are canonical and structural equality coincides
with value equality.

External collaborators (the filesystem, `shutil.which`, werkzeug's
`secure_filename`, the QR and PDF libraries) are passed in as explicit
oracle parameters, exactly where the source consults them.
-/

/-- Exact rational: numerator and denominator. -/
structure Q where
  n : ℤ
  d : ℤ
deriving DecidableEq, Repr

/-- Build the canonical representative of `n / d` (positive denominator,
reduced by the gcd); `d = 0` never arises from the embedded code. -/
def mkQ (n d : ℤ) : Q :=
  if d = 0 then ⟨0, 1⟩
  else
    let s : ℤ := if d < 0 then -1 else 1
    let n' := s * n
    let d' := s * d
    let g : ℤ := Int.gcd n' d'
    ⟨n' / g, d' / g⟩

def qOfInt (n : ℤ) : Q := ⟨n, 1⟩

def addQ (a b : Q) : Q := mkQ (a.n * b.d + b.n * a.d) (a.d * b.d)

def subQ (a b : Q) : Q := mkQ (a.n * b.d - b.n * a.d) (a.d * b.d)

def mulQ (a b : Q) : Q := mkQ (a.n * b.n) (a.d * b.d)

def divQ (a b : Q) : Q := mkQ (a.n * b.d) (a.d * b.n)

/-- `a ≤ b` for canonical values (positive denominators). -/
def leQ (a b : Q) : Bool := decide (a.n * b.d ≤ b.n * a.d)

/-- `a < b` for canonical values (positive denominators). -/
def ltQ (a b : Q) : Bool := decide (a.n * b.d < b.n * a.d)

/-- Python's `max(a, b)`: returns `b` when `a < b`, else `a`. -/
def maxQ (a b : Q) : Q := if ltQ a b then b else a

/-! Decimal rendering of natural numbers (the embedding of Python's
`str` on non-negative integers), by structural recursion on a fuel
argument so that the kernel can evaluate it. -/

def digitChar : ℕ → Char
  | 0 => '0' | 1 => '1' | 2 => '2' | 3 => '3' | 4 => '4'
  | 5 => '5' | 6 => '6' | 7 => '7' | 8 => '8' | 9 => '9'
  | _ => '?'

def digitVal (c : Char) : ℕ := c.toNat - 48

def natChars : ℕ → ℕ → List Char
  | _, 0 => []
  | 0, _ + 1 => []
  | fuel + 1, n + 1 => natChars fuel ((n + 1) / 10) ++ [digitChar ((n + 1) % 10)]

/-- Decimal string of a natural number. -/
def natStr (n : ℕ) : String := if n = 0 then "0" else String.mk (natChars n n)

/-- Value of a decimal digit string (used to invert `natStr`). -/
def valOf (l : List Char) : ℕ := l.foldl (fun a c => 10 * a + digitVal c) 0

/-! Substring search, the embedding of Python's `needle in haystack`. -/

def leadsIn : List Char → List Char → Bool
  | [], _ => true
  | _ :: _, [] => false
  | a :: as, b :: bs => a == b && leadsIn as bs

def occursIn (needle : List Char) : List Char → Bool
  | [] => leadsIn needle []
  | c :: rest => leadsIn needle (c :: rest) || occursIn needle rest

/-- Python `needle in hay` on strings. -/
def hasSub (needle hay : String) : Bool := occursIn needle.data hay.data

def lowerCh (c : Char) : Char := c.toLower

/-- Python `str.lower` (ASCII letters, which is all the code compares). -/
def lowerStr (s : String) : String := String.mk (s.data.map lowerCh)

/-! Two-decimal formatting: the embedding of `"{0:.2f}".format(x)` applied
to the exact value: round to the nearest multiple of 1/100 with ties to
even, then print with exactly two fractional digits. -/

/-- Round a canonical rational to the nearest integer, ties to even. -/
def rhe (x : Q) : ℤ :=
  let f := Int.fdiv x.n x.d
  let r := x.n - f * x.d
  if 2 * r < x.d then f
  else if x.d < 2 * r then f + 1
  else if f % 2 = 0 then f else f + 1

def pad2 (n : ℕ) : String := if n < 10 then "0" ++ natStr n else natStr n

/-- Two-decimal fixed-point rendering of a rational (the sign is the sign
of the value, as in Python, so -0.004 prints as -0.00). -/
def format2 (x : Q) : String :=
  let c := rhe (mulQ (qOfInt 100) x)
  (if ltQ x (qOfInt 0) then "-" else "") ++ natStr (c.natAbs / 100) ++ "." ++ pad2 (c.natAbs % 100)

/-! `app.py` lines 79-80: `allowed_file`. -/

def ALLOWED_EXTENSIONS : List (List Char) :=
  ["png".data, "jpg".data, "jpeg".data, "gif".data, "svg".data]

/-- Characters after the last dot, or `none` when there is no dot
(Python `filename.rsplit(Chr.dot, 1)[1]` guarded by a dot-membership test). -/
def afterLastDot : List Char → Option (List Char)
  | [] => none
  | c :: rest =>
    match afterLastDot rest with
    | some s => some s
    | none => if c = '.' then some rest else none

def allowed_file (filename : String) : Bool :=
  match afterLastDot filename.data with
  | none => false
  | some e => ALLOWED_EXTENSIONS.contains (e.map lowerCh)

/-! `app.py` lines 115-133: `upload_logo`.  The stored name is
`f"{name}_{int(timestamp)}{ext}"` built from `os.path.splitext` of the
sanitized name; `secure_filename` is external (werkzeug) and is passed in
as an oracle `sec`.  The call time is a rational number of seconds
(non-negative in reality); `int(...)` truncates it to whole seconds. -/

/-- Index of the last dot that has a non-dot character somewhere before it
(`os.path.splitext` splits there; names with only leading dots have no
extension). -/
def lastDotPos (cs : List Char) : Option ℕ :=
  (List.range cs.length).reverse.find?
    (fun i => (cs.getD i ' ' == '.') && (List.range i).any (fun j => !(cs.getD j ' ' == '.')))

/-- `os.path.splitext` on a plain file name (no path separators). -/
def splitExtChars (cs : List Char) : List Char × List Char :=
  match lastDotPos cs with
  | none => (cs, [])
  | some i => (cs.take i, cs.drop i)

/-- `int(datetime.now().timestamp())`: whole seconds of the call time. -/
def secondsOf (t : Q) : ℕ := (Int.fdiv t.n t.d).toNat

/-- The stored filename `f"{name}_{int(ts)}{ext}"` (`app.py` lines 125-128). -/
def storedFilename (sec : String → String) (orig : String) (t : Q) : String :=
  let p := splitExtChars (sec orig).data
  String.mk (p.1 ++ ('_' :: (natStr (secondsOf t)).data) ++ p.2)

inductive UploadResult where
  | noFileSel
  | invalidType
  | saved (stored : String)
deriving DecidableEq, Repr

def UPLOAD_FOLDER : String := "static/uploads"

/-- `upload_logo` (`app.py` lines 115-133): the HTTP result paired with the
list of files written to disk.  `logoField` is the filename of the `logo`
form field (`none` when the field is absent). -/
def upload_logo (sec : String → String) (logoField : Option String) (t : Q) :
    UploadResult × List String :=
  match logoField with
  | none => (.noFileSel, [])
  | some fn =>
    if fn = "" then (.noFileSel, [])
    else if allowed_file fn then
      let stored := storedFilename sec fn t
      (.saved stored, [UPLOAD_FOLDER ++ "/" ++ stored])
    else (.invalidType, [])

/-! `app.py` lines 135-238: `generate_receipt`.  The request body is a JSON
object; the fields the totals/QR logic reads are modelled explicitly, each
as an `Option` (`none` = key absent). -/

structure LineItem where
  quantity : Option Q
  price : Option Q
deriving DecidableEq, Repr

/-- The `items` entry of the request: absent, a JSON list, or some
non-list value. -/
inductive ItemsField where
  | absent
  | list (items : List LineItem)
  | nonList
deriving DecidableEq, Repr

structure GenReq where
  items : ItemsField
  tax_rate : Option Q
  discount : Option Q
  subtotal : Option String
  tax_amount : Option String
  grand_total : Option String
  receipt_id : Option String
  business_name : Option String
  client_name : Option String
  date : Option String
  payment_status : Option String
deriving DecidableEq, Repr

/-- Lines 142-146: `data.get(..., [])` with default, then
`isinstance(items_data, list)` — a non-list (and an absent key) yields `[]`. -/
def normalizeItems : ItemsField → List LineItem
  | .absent => []
  | .list l => l
  | .nonList => []

/-- `float(item.get(..., 0)) * float(item.get(..., 0))` for one line item. -/
def itemAmount (it : LineItem) : Q := mulQ (it.quantity.getD (qOfInt 0)) (it.price.getD (qOfInt 0))

/-- Line 150: the sum of quantity × price over the items. -/
def subtotalOf (l : List LineItem) : Q := l.foldl (fun a it => addQ a (itemAmount it)) (qOfInt 0)

/-- `(subtotal * tax_rate) / 100` (line 153). -/
def taxAmountOf (d : GenReq) : Q :=
  divQ (mulQ (subtotalOf (normalizeItems d.items)) (d.tax_rate.getD (qOfInt 0))) (qOfInt 100)

/-- `subtotal + tax_amount - discount` (line 154), before the clamp. -/
def grandTotalOf (d : GenReq) : Q :=
  subQ (addQ (subtotalOf (normalizeItems d.items)) (taxAmountOf d)) (d.discount.getD (qOfInt 0))

/-- Lines 141-158 of `generate_receipt`: normalize `items`, then compute and
format the three totals when at least one of them is missing from the body. -/
def processTotals (d : GenReq) : GenReq :=
  let its := normalizeItems d.items
  let d1 : GenReq := { d with items := ItemsField.list its }
  if d1.subtotal.isNone || d1.tax_amount.isNone || d1.grand_total.isNone then
    let st := subtotalOf its
    let ta := divQ (mulQ st (d1.tax_rate.getD (qOfInt 0))) (qOfInt 100)
    let gt := subQ (addQ st ta) (d1.discount.getD (qOfInt 0))
    { d1 with
      subtotal := some (format2 st)
      tax_amount := some (format2 ta)
      grand_total := some (format2 (maxQ (qOfInt 0) gt)) }
  else d1

/-- The QR payload built at lines 161-168 (after the totals step). -/
structure QrPayload where
  receipt_id : Option String
  business_name : Option String
  client_name : Option String
  total : Option String
  date : Option String
  status : Option String
deriving DecidableEq, Repr

def qrPayloadOf (d : GenReq) : QrPayload :=
  ⟨d.receipt_id, d.business_name, d.client_name, d.grand_total, d.date, d.payment_status⟩

/-! Error handling of `generate_receipt` (lines 211-238).  The QR/template
steps and the PDF rendering are external; their outcomes are oracles. -/

inductive RenderResult where
  | success
  | osError (msg : String)
  | exn (msg : String)
deriving DecidableEq, Repr

/-- The actionable installation hint returned at lines 218-221. -/
def installHint : String :=
  "PDF generation requires wkhtmltopdf to be installed. Please install it using: sudo apt-get install wkhtmltopdf (Ubuntu/Debian) or visit https://wkhtmltopdf.org/downloads.html for other platforms."

inductive HResp where
  | okJson (receipt_id : Option String) (pdf_filename : String)
  | errJson (code : ℕ) (msg : String)
deriving DecidableEq, Repr

def pdfFilenameOf (d : GenReq) : String := "receipt_" ++ d.receipt_id.getD "None" ++ ".pdf"

/-- The response of `generate_receipt` as a function of the outcome of the
QR/template steps (`qrRes`, any exception is caught by the outer handler at
lines 236-238) and of `pdfkit.from_string` (lines 211-223: an `OSError`
mentioning wkhtmltopdf becomes the installation hint; any other `OSError`
is re-raised into the outer handler; any other exception also reaches the
outer handler). -/
def generate_receipt_resp (d : GenReq) (qrRes : Except String Unit) (render : RenderResult) :
    HResp :=
  match qrRes with
  | .error e => .errJson 500 e
  | .ok _ =>
    match render with
    | .success => .okJson d.receipt_id (pdfFilenameOf d)
    | .osError m =>
      if hasSub "wkhtmltopdf" (lowerStr m) then .errJson 500 installHint
      else .errJson 500 m
    | .exn m => .errJson 500 m

/-! `app.py` lines 240-274: the download endpoints.  The filesystem is an
explicit list of existing paths. -/

inductive DlResp where
  | invalid400
  | notFound404
  | sendFile (path : String) (downloadName : String)
deriving DecidableEq, Repr

/-- `download_pdf` (lines 240-256). -/
def download_pdf (fs : List String) (filename : String) : DlResp :=
  if (filename == "") || hasSub ".." filename || hasSub "/" filename then .invalid400
  else
    let pdf_path := "static/" ++ filename
    if pdf_path ∈ fs then .sendFile pdf_path filename
    else .notFound404

/-- `download_receipt` (lines 258-274). -/
def download_receipt (fs : List String) (rid : String) : DlResp :=
  if (rid == "") || hasSub ".." rid || hasSub "/" rid then .invalid400
  else
    let pdf_filename := "receipt_" ++ rid ++ ".pdf"
    let pdf_path := "static/" ++ pdf_filename
    if pdf_path ∈ fs then .sendFile pdf_path pdf_filename
    else .notFound404

/-! `app.py` lines 86-99: the deferred deletion body.  The thread sleeps,
then runs `os.path.exists` / `os.remove` under a try/except that logs and
swallows every exception.  `fileExists` is the `os.path.exists` answer at
fire time and `removeRes` the outcome of `os.remove` (which is only
consulted when the file exists). -/

/-- The try-block: `Bool` = whether the file was removed; an `error` is an
exception escaping the block. -/
def delete_attempt (fileExists : Bool) (removeRes : Except String Unit) : Except String Bool :=
  if fileExists then removeRes.map (fun _ => true) else .ok false

/-- The whole thread body: the except-clause turns any exception into a
logged message, so the body always returns normally.  Result: (removed?,
logged error). -/
def delete_file (fileExists : Bool) (removeRes : Except String Unit) : Bool × Option String :=
  match delete_attempt fileExists removeRes with
  | .ok b => (b, none)
  | .error e => (false, some e)

/-! `app.py` lines 18-51: `get_wkhtmltopdf_path`.  `shutil.which` and the
two `os` tests are oracles; the candidate list (with its duplicates) is the
literal list from the source. -/

def nixWkhtmltopdf : String :=
  "/nix/store/hxiay4lkq4389vxnhnb3d0pbaw6siwkw-wkhtmltopdf/bin/wkhtmltopdf"

def possible_paths (which : Option String) : List (Option String) :=
  [ some nixWkhtmltopdf,
    which,
    some "/usr/bin/wkhtmltopdf",
    some "/usr/local/bin/wkhtmltopdf",
    some "/usr/local/bin/wkhtmltopdf",
    some "/home/username/.local/bin/wkhtmltopdf",
    some "/usr/bin/wkhtmltopdf",
    some "C:\\Program Files\\wkhtmltopdf\\bin\\wkhtmltopdf.exe",
    some "C:\\Program Files (x86)\\wkhtmltopdf\\bin\\wkhtmltopdf.exe",
    some "/usr/local/bin/wkhtmltopdf",
    some "/opt/homebrew/bin/wkhtmltopdf" ]

/-- `if path and os.path.isfile(path) and os.access(path, os.X_OK)`. -/
def pathOk (isFile execOk : String → Bool) : Option String → Bool
  | none => false
  | some p => (!(p == "")) && isFile p && execOk p

def findFirstPath (isFile execOk : String → Bool) : List (Option String) → Option String
  | [] => none
  | po :: rest => if pathOk isFile execOk po then po else findFirstPath isFile execOk rest

def get_wkhtmltopdf_path (isFile execOk : String → Bool) (which : Option String) :
    Option String :=
  findFirstPath isFile execOk (possible_paths which)

/-! Concrete requests used by the witnesses and counterexamples. -/

def emptyReq : GenReq :=
  ⟨ItemsField.list [], none, none, none, none, none, none, none, none, none, none⟩

/-- The worked example of the spec: one item, qty 2 × price 10, tax rate 10,
discount 5, no caller-supplied totals. -/
def c1Req : GenReq :=
  { emptyReq with
    items := ItemsField.list [⟨some (qOfInt 2), some (qOfInt 10)⟩]
    tax_rate := some (qOfInt 10)
    discount := some (qOfInt 5) }

/-- A request whose caller supplies all three totals, the grand total
negative. -/
def reqNeg : GenReq :=
  { emptyReq with
    subtotal := some "0.00"
    tax_amount := some "0.00"
    grand_total := some "-5.00" }

/-- A request whose `items` entry is not a list. -/
def nonListReq : GenReq := { emptyReq with items := ItemsField.nonList }

/-! Helper lemmas. -/

theorem digitVal_digitChar {d : ℕ} (h : d < 10) : digitVal (digitChar d) = d := by
  have hall : ∀ i : Fin 10, digitVal (digitChar i.val) = i.val := by decide
  exact hall ⟨d, h⟩

theorem valOf_append (l : List Char) (c : Char) :
    valOf (l ++ [c]) = 10 * valOf l + digitVal c := by
  simp [valOf, List.foldl_append]

theorem valOf_natChars : ∀ fuel n : ℕ, n ≤ fuel → valOf (natChars fuel n) = n := by
  intro fuel
  induction fuel with
  | zero =>
    intro n hn
    interval_cases n
    simp [natChars, valOf]
  | succ f ih =>
    intro n hn
    match n with
    | 0 => simp [natChars, valOf]
    | m + 1 =>
      rw [natChars, valOf_append]
      have hdiv : (m + 1) / 10 ≤ f := by
        have := Nat.div_lt_self (Nat.succ_pos m) (by norm_num : 1 < 10)
        omega
      rw [ih _ hdiv, digitVal_digitChar (Nat.mod_lt _ (by norm_num))]
      omega

theorem valOf_natStr (n : ℕ) : valOf (natStr n).data = n := by
  by_cases h0 : n = 0
  · subst h0; decide
  · show valOf (if n = 0 then "0" else String.mk (natChars n n)).data = n
    rw [if_neg h0]
    exact valOf_natChars n n le_rfl

theorem natStr_injective {a b : ℕ} (h : (natStr a).data = (natStr b).data) : a = b := by
  have hv := congrArg valOf h
  rwa [valOf_natStr, valOf_natStr] at hv

theorem leQ_zero_maxQ (x : Q) : leQ (qOfInt 0) (maxQ (qOfInt 0) x) = true := by
  unfold maxQ
  by_cases h : ltQ (qOfInt 0) x = true
  · rw [if_pos h]
    simp only [ltQ, qOfInt, decide_eq_true_eq] at h
    simp only [leQ, qOfInt, decide_eq_true_eq]
    omega
  · rw [if_neg h]
    decide

theorem findFirstPath_none_iff (f g : String → Bool) (l : List (Option String)) :
    findFirstPath f g l = none ↔ ∀ po ∈ l, pathOk f g po = false := by
  induction l with
  | nil => simp [findFirstPath]
  | cons po rest ih =>
    rw [findFirstPath]
    by_cases hok : pathOk f g po = true
    · rw [if_pos hok]
      cases po with
      | none => simp [pathOk] at hok
      | some p => simp [hok]
    · rw [if_neg hok]
      simp only [Bool.not_eq_true] at hok
      simp [hok, ih]

theorem findFirstPath_some (f g : String → Bool) :
    ∀ (l : List (Option String)) (p : String), findFirstPath f g l = some p →
      pathOk f g (some p) = true ∧
      ∃ pre post, l = pre ++ some p :: post ∧ ∀ po ∈ pre, pathOk f g po = false := by
  intro l
  induction l with
  | nil => intro p h; simp [findFirstPath] at h
  | cons po rest ih =>
    intro p h
    rw [findFirstPath] at h
    by_cases hok : pathOk f g po = true
    · rw [if_pos hok] at h
      subst h
      exact ⟨hok, [], rest, rfl, by simp⟩
    · rw [if_neg hok] at h
      simp only [Bool.not_eq_true] at hok
      obtain ⟨hq, pre, post, hl, hpre⟩ := ih p h
      refine ⟨hq, po :: pre, post, by rw [hl]; rfl, ?_⟩
      intro po' hmem
      rcases List.mem_cons.mp hmem with hh | hh
      · rw [hh]; exact hok
      · exact hpre po' hh

/-! Claim theorems. -/

/-- Claim C1: when the caller supplies none of subtotal, tax_amount and
grand_total, `generate_receipt` computes subtotal = Σ quantity × price,
tax_amount = subtotal × tax_rate / 100 and grand_total =
max(0, subtotal + tax_amount − discount), each formatted to exactly two
decimals; in particular the spec example (qty 2 × price 10, tax rate 10,
discount 5) yields "20.00", "2.00" and "17.00". -/
theorem claim_C1 :
    (∀ d : GenReq, d.subtotal = none → d.tax_amount = none → d.grand_total = none →
      (processTotals d).subtotal = some (format2 (subtotalOf (normalizeItems d.items))) ∧
      (processTotals d).tax_amount = some (format2 (taxAmountOf d)) ∧
      (processTotals d).grand_total = some (format2 (maxQ (qOfInt 0) (grandTotalOf d)))) ∧
    ((processTotals c1Req).subtotal = some "20.00" ∧
     (processTotals c1Req).tax_amount = some "2.00" ∧
     (processTotals c1Req).grand_total = some "17.00") := by
  constructor
  · intro d h1 h2 h3
    refine ⟨?_, ?_, ?_⟩ <;> simp [processTotals, taxAmountOf, grandTotalOf, h1, h2, h3]
  · refine ⟨by decide, by decide, by decide⟩

/-- Witness for C1: the general statement applied to the spec example, with
the formatted results evaluated to the literal strings. -/
theorem claim_C1_witness :
    (processTotals c1Req).subtotal = some "20.00" ∧
    (processTotals c1Req).tax_amount = some "2.00" ∧
    (processTotals c1Req).grand_total = some "17.00" := by
  have h := claim_C1.1 c1Req rfl rfl rfl
  exact ⟨h.1.trans (by decide), h.2.1.trans (by decide), h.2.2.trans (by decide)⟩

/-- Counterexample to C2 as stated: a request whose caller supplies
grand_total "-5.00" (with subtotal and tax_amount) flows through
`generate_receipt` unchanged, so the resulting receipt data carries a
negative grand_total that differs from max(0, subtotal + tax − discount). -/
theorem claim_C2_cex :
    (processTotals reqNeg).grand_total = some "-5.00" ∧
    format2 (maxQ (qOfInt 0) (grandTotalOf reqNeg)) = "0.00" ∧
    ("-5.00" : String) ≠ "0.00" := by decide

/-- Claim C2 (amended): whenever the totals are computed by the server —
that is, at least one of subtotal, tax_amount, grand_total is absent from
the request — the resulting grand_total is the two-decimal formatting of
max(0, subtotal + tax_amount − discount), a non-negative value. -/
theorem claim_C2 (d : GenReq)
    (h : d.subtotal = none ∨ d.tax_amount = none ∨ d.grand_total = none) :
    (processTotals d).grand_total = some (format2 (maxQ (qOfInt 0) (grandTotalOf d))) ∧
    leQ (qOfInt 0) (maxQ (qOfInt 0) (grandTotalOf d)) = true := by
  refine ⟨?_, leQ_zero_maxQ _⟩
  rcases h with h | h | h <;> simp [processTotals, taxAmountOf, grandTotalOf, h]

/-- Witness for C2 (amended), at the spec example request (no caller totals). -/
theorem claim_C2_witness :
    (c1Req.subtotal = none ∨ c1Req.tax_amount = none ∨ c1Req.grand_total = none) ∧
    ((processTotals c1Req).grand_total = some (format2 (maxQ (qOfInt 0) (grandTotalOf c1Req))) ∧
     leQ (qOfInt 0) (maxQ (qOfInt 0) (grandTotalOf c1Req)) = true) :=
  ⟨Or.inl rfl, claim_C2 c1Req (Or.inl rfl)⟩

/-- Claim C7: a request whose items entry is not a well-formed list is
treated as having an empty item list (and hence, when the totals are
computed, subtotal "0.00") instead of failing. -/
theorem claim_C7 (d : GenReq) (h : d.items = ItemsField.nonList) :
    (processTotals d).items = ItemsField.list [] ∧
    (d.subtotal = none → (processTotals d).subtotal = some "0.00") := by
  constructor
  · simp [processTotals, normalizeItems, h, apply_ite]
  · intro hs
    have h0 : format2 (subtotalOf (normalizeItems d.items)) = "0.00" := by
      rw [h]; decide
    simp [processTotals, normalizeItems, h, hs] at *
    simpa [normalizeItems] using h0

/-- Witness for C7: a concrete request with a non-list items entry. -/
theorem claim_C7_witness :
    (processTotals nonListReq).items = ItemsField.list [] ∧
    (processTotals nonListReq).subtotal = some "0.00" :=
  ⟨(claim_C7 nonListReq rfl).1, (claim_C7 nonListReq rfl).2 rfl⟩

/-- Claim C10: when the caller supplies all three totals, the totals step
leaves them unchanged — no recomputation and no clamping — and the QR
payload carries the caller-supplied grand_total verbatim. -/
theorem claim_C10 (d : GenReq) (h1 : d.subtotal.isSome = true)
    (h2 : d.tax_amount.isSome = true) (h3 : d.grand_total.isSome = true) :
    (processTotals d).subtotal = d.subtotal ∧
    (processTotals d).tax_amount = d.tax_amount ∧
    (processTotals d).grand_total = d.grand_total ∧
    (qrPayloadOf (processTotals d)).total = d.grand_total := by
  obtain ⟨s1, e1⟩ := Option.isSome_iff_exists.mp h1
  obtain ⟨s2, e2⟩ := Option.isSome_iff_exists.mp h2
  obtain ⟨s3, e3⟩ := Option.isSome_iff_exists.mp h3
  refine ⟨?_, ?_, ?_, ?_⟩ <;> simp [processTotals, qrPayloadOf, e1, e2, e3]

/-- Witness for C10: the request whose caller supplies a negative
grand_total; all three totals pass through unchanged. -/
theorem claim_C10_witness :
    (reqNeg.subtotal.isSome = true ∧ reqNeg.tax_amount.isSome = true ∧
     reqNeg.grand_total.isSome = true) ∧
    ((processTotals reqNeg).subtotal = reqNeg.subtotal ∧
     (processTotals reqNeg).tax_amount = reqNeg.tax_amount ∧
     (processTotals reqNeg).grand_total = reqNeg.grand_total ∧
     (qrPayloadOf (processTotals reqNeg)).total = reqNeg.grand_total) :=
  ⟨⟨rfl, rfl, rfl⟩, claim_C10 reqNeg rfl rfl rfl⟩

/-- Counterexample to C3 as stated: the empty identifier contains neither
".." nor "/" and no matching file exists, yet the endpoint answers 400
BadRequest instead of the 404 the claim prescribes for that case. -/
theorem claim_C3_cex :
    hasSub ".." "" = false ∧ hasSub "/" "" = false ∧
    ¬(("static/" ++ "") ∈ ([] : List String)) ∧
    download_pdf [] "" = DlResp.invalid400 ∧
    DlResp.invalid400 ≠ DlResp.notFound404 := by decide

/-- Claim C3 (amended): both download endpoints answer 400 BadRequest when
the identifier is empty or contains ".." or "/" (regardless of the
filesystem); otherwise they answer 404 NotFound when the resolved file
under the static directory is absent, and stream it as an attachment when
it exists. -/
theorem claim_C3 (fs : List String) (idStr : String) :
    ((idStr = "" ∨ hasSub ".." idStr = true ∨ hasSub "/" idStr = true) →
      download_pdf fs idStr = DlResp.invalid400 ∧
      download_receipt fs idStr = DlResp.invalid400) ∧
    (idStr ≠ "" → hasSub ".." idStr = false → hasSub "/" idStr = false →
      ((("static/" ++ idStr) ∈ fs →
          download_pdf fs idStr = DlResp.sendFile ("static/" ++ idStr) idStr) ∧
       (("static/" ++ idStr) ∉ fs → download_pdf fs idStr = DlResp.notFound404) ∧
       (("static/receipt_" ++ idStr ++ ".pdf") ∈ fs →
          download_receipt fs idStr =
            DlResp.sendFile ("static/receipt_" ++ idStr ++ ".pdf") ("receipt_" ++ idStr ++ ".pdf")) ∧
       (("static/receipt_" ++ idStr ++ ".pdf") ∉ fs →
          download_receipt fs idStr = DlResp.notFound404))) := by
  constructor
  · intro h
    have hc : ((idStr == "") || hasSub ".." idStr || hasSub "/" idStr) = true := by
      rcases h with h | h | h <;> simp [h]
    constructor <;> simp [download_pdf, download_receipt, hc]
  · intro h1 h2 h3
    have hc : ((idStr == "") || hasSub ".." idStr || hasSub "/" idStr) = false := by
      simp [h1, h2, h3]
    have hp : ("static/" : String) ++ ("receipt_" ++ idStr ++ ".pdf") =
        "static/receipt_" ++ idStr ++ ".pdf" := by
      rw [← String.append_assoc, ← String.append_assoc,
        show ("static/" : String) ++ "receipt_" = "static/receipt_" by decide]
    refine ⟨?_, ?_, ?_, ?_⟩ <;> intro hmem <;>
      simp [download_pdf, download_receipt, hc, hp, hmem]

/-- Witness for C3 (amended): a receipt file that exists is streamed, at a
concrete identifier and filesystem. -/
theorem claim_C3_witness :
    ("RCP-1" ≠ "" ∧ hasSub ".." "RCP-1" = false ∧ hasSub "/" "RCP-1" = false ∧
     ("static/receipt_" ++ "RCP-1" ++ ".pdf") ∈ ["static/receipt_RCP-1.pdf"]) ∧
    download_receipt ["static/receipt_RCP-1.pdf"] "RCP-1" =
      DlResp.sendFile ("static/receipt_" ++ "RCP-1" ++ ".pdf") ("receipt_" ++ "RCP-1" ++ ".pdf") :=
  ⟨by decide,
   ((claim_C3 ["static/receipt_RCP-1.pdf"] "RCP-1").2 (by decide) (by decide) (by decide)).2.2.1
     (by decide)⟩

/-- Claim C4: an OSError from the PDF step whose message mentions
wkhtmltopdf (the renderer binary being unavailable) yields HTTP 500 with
the actionable installation hint, while every other failure during QR/PDF
creation yields HTTP 500 carrying the underlying exception message. -/
theorem claim_C4 (d : GenReq) (r : RenderResult) (m e : String) :
    (hasSub "wkhtmltopdf" (lowerStr m) = true →
      generate_receipt_resp d (Except.ok ()) (RenderResult.osError m) =
        HResp.errJson 500 installHint) ∧
    (hasSub "wkhtmltopdf" (lowerStr m) = false →
      generate_receipt_resp d (Except.ok ()) (RenderResult.osError m) = HResp.errJson 500 m) ∧
    generate_receipt_resp d (Except.ok ()) (RenderResult.exn m) = HResp.errJson 500 m ∧
    generate_receipt_resp d (Except.error e) r = HResp.errJson 500 e := by
  refine ⟨fun h => ?_, fun h => ?_, rfl, rfl⟩ <;> simp [generate_receipt_resp, h]

/-- Witness for C4: a concrete OSError message naming wkhtmltopdf produces
the installation hint. -/
theorem claim_C4_witness :
    hasSub "wkhtmltopdf" (lowerStr "No wkhtmltopdf executable found") = true ∧
    generate_receipt_resp emptyReq (Except.ok ())
        (RenderResult.osError "No wkhtmltopdf executable found") =
      HResp.errJson 500 installHint :=
  ⟨by decide,
   (claim_C4 emptyReq RenderResult.success "No wkhtmltopdf executable found" "x").1 (by decide)⟩

/-- Claim C5: `upload_logo` answers the no-file-selected 400 error when the
field is absent or its filename is empty, and the invalid-type 400 error —
writing nothing to disk — when the extension (case-insensitively) is not in
{png, jpg, jpeg, gif, svg}. -/
theorem claim_C5 (sec : String → String) (t : Q) (fn : String) :
    upload_logo sec none t = (UploadResult.noFileSel, []) ∧
    upload_logo sec (some "") t = (UploadResult.noFileSel, []) ∧
    (fn ≠ "" → allowed_file fn = false →
      upload_logo sec (some fn) t = (UploadResult.invalidType, [])) := by
  refine ⟨rfl, rfl, fun h1 h2 => ?_⟩
  simp [upload_logo, h1, h2]

/-- Witness for C5: a concrete .exe upload is rejected with nothing written. -/
theorem claim_C5_witness :
    ("virus.exe" ≠ "" ∧ allowed_file "virus.exe" = false) ∧
    upload_logo (fun s => s) (some "virus.exe") (qOfInt 5) = (UploadResult.invalidType, []) :=
  ⟨⟨by decide, by decide⟩,
   (claim_C5 (fun s => s) (qOfInt 5) "virus.exe").2.2 (by decide) (by decide)⟩

/-- Counterexample to C6 as stated: two distinct call instants inside the
same whole second (1000.1s and 1000.9s) store the same original filename
under the same name — the integer-second timestamp does not distinguish
them, so the second upload overwrites the first. -/
theorem claim_C6_cex :
    mkQ 10001 10 ≠ mkQ 10009 10 ∧
    storedFilename (fun s => s) "logo.png" (mkQ 10001 10) = "logo_1000.png" ∧
    storedFilename (fun s => s) "logo.png" (mkQ 10009 10) = "logo_1000.png" := by decide

/-- Claim C6 (amended): two successful uploads of the same original
filename whose call times truncate to different whole seconds store the
file under distinct names (the integer timestamp is embedded between the
base name and the extension). -/
theorem claim_C6 (sec : String → String) (orig : String) (t1 t2 : Q)
    (h : secondsOf t1 ≠ secondsOf t2) :
    storedFilename sec orig t1 ≠ storedFilename sec orig t2 := by
  intro heq
  apply h
  apply natStr_injective
  simp only [storedFilename] at heq
  injection heq with hd
  rw [List.append_assoc, List.append_assoc] at hd
  have h2 := List.append_cancel_left hd
  have h3 := List.append_cancel_right h2
  injection h3

/-- Witness for C6 (amended): seconds 5 and 6 give distinct stored names. -/
theorem claim_C6_witness :
    secondsOf (qOfInt 5) ≠ secondsOf (qOfInt 6) ∧
    storedFilename (fun s => s) "a.png" (qOfInt 5) ≠
      storedFilename (fun s => s) "a.png" (qOfInt 6) :=
  ⟨by decide, claim_C6 (fun s => s) "a.png" (qOfInt 5) (qOfInt 6) (by decide)⟩

/-- Claim C8: the deferred deletion body is a no-op (not a failure) when
the file is already absent — the remove step is never consulted — and any
deletion failure is converted into a logged message, the body always
returning normally; the scheduling call itself returns to the caller
independently of this outcome. -/
theorem claim_C8 :
    (∀ removeRes : Except String Unit, delete_file false removeRes = (false, none)) ∧
    (∀ e : String, delete_file true (Except.error e) = (false, some e)) ∧
    delete_file true (Except.ok ()) = (true, none) :=
  ⟨fun _ => rfl, fun _ => rfl, rfl⟩

/-- Claim C9: renderer-binary auto-discovery returns the first candidate of
the prioritized list that is a non-empty path naming an existing executable
file, and `none` (falling back to the engine default) exactly when no
candidate qualifies. -/
theorem claim_C9 (isFile execOk : String → Bool) (which : Option String) :
    (get_wkhtmltopdf_path isFile execOk which = none ↔
      ∀ po ∈ possible_paths which, pathOk isFile execOk po = false) ∧
    (∀ p : String, get_wkhtmltopdf_path isFile execOk which = some p →
      pathOk isFile execOk (some p) = true ∧
      ∃ pre post, possible_paths which = pre ++ some p :: post ∧
        ∀ po ∈ pre, pathOk isFile execOk po = false) :=
  ⟨findFirstPath_none_iff isFile execOk (possible_paths which),
   fun p h => findFirstPath_some isFile execOk (possible_paths which) p h⟩

/-- Witness for C9: with every path an existing executable, discovery
returns the first candidate (the Nix store path), and it qualifies. -/
theorem claim_C9_witness :
    pathOk (fun _ => true) (fun _ => true) (some nixWkhtmltopdf) = true ∧
    ∃ pre post, possible_paths none = pre ++ some nixWkhtmltopdf :: post ∧
      ∀ po ∈ pre, pathOk (fun _ => true) (fun _ => true) po = false :=
  (claim_C9 (fun _ => true) (fun _ => true) none).2 nixWkhtmltopdf (by decide)
